import Mathlib

/-!
Verification of the outstocked auth bootstrap and invite endpoint.

This file gives a shallow embedding of the session/profile bootstrap state
machine of src/contexts/AuthContext.tsx (latest revision), of the earlier
bootstrap revisions that carry a startup safety timer, and of the
server-side invite endpoint api/invite.ts, and proves properties of the
embedded definitions.

External calls (the auth provider and the database) are modelled by
environment records that fix the outcome of each call a run performs;
JavaScript undefined and null are modelled by Option, and a truthiness
test on a metadata string field is modelled by Option.isSome.
-/

namespace Outstocked

/-- Metadata bag carried on the external auth user record, the
user_metadata field in the source. Absent keys are none. -/
structure UserMeta where
  organization_id : Option String
  display_name : Option String
  invited_by : Option String
  invited_role : Option String
deriving Repr, DecidableEq

/-- External auth identity record as consumed by the bootstrap code. -/
structure User where
  id : String
  email : Option String
  user_metadata : UserMeta
deriving Repr, DecidableEq

/-- Row of the user_profiles table, as selected and inserted by the
client code. The created_at column is never read by the code under
study and is omitted. -/
structure UserProfile where
  id : String
  organization_id : String
  email : Option String
  display_name : Option String
  role : String
deriving Repr, DecidableEq

/-- Row of the organizations table. -/
structure Organization where
  id : String
  name : String
deriving Repr, DecidableEq

/-- Session bundle returned by the auth service. Only the attached user
is inspected by the code under study; the token fields are opaque. -/
structure Session where
  user : User
deriving Repr, DecidableEq

/-- The AuthState record of the latest AuthContext revision. -/
structure AuthState where
  session : Option Session
  user : Option User
  profile : Option UserProfile
  organization : Option Organization
  initialized : Bool
  needsPasswordSetup : Bool
deriving Repr, DecidableEq

/-- The initial React state of the AuthProvider. -/
def initialAuthState : AuthState :=
  { session := none, user := none, profile := none, organization := none,
    initialized := false, needsPasswordSetup := false }

/-- Local part of an email address: the piece before the first at sign,
as computed by email.split of the at sign, index 0. -/
def localPart (email : String) : String :=
  String.mk (email.data.takeWhile (fun c => c != Char.ofNat 64))

/-- JavaScript string trim over the character list (whitespace removed
from both ends). -/
def jsTrim (s : String) : String :=
  String.mk
    (((s.data.dropWhile Char.isWhitespace).reverse.dropWhile
        Char.isWhitespace).reverse)

/-- JavaScript toLowerCase over the character list. -/
def jsToLower (s : String) : String :=
  String.mk (s.data.map Char.toLower)

/-- Prefix test over the character lists of the two strings. -/
def strStartsWith (s pre : String) : Bool :=
  pre.data.isPrefixOf s.data

/-- Outcomes of the external calls one run of loadProfileData performs.
profileRes is the user_profiles select by user id, none when the query
errored or returned no row (the code tests profileError or missing data
with a single branch); getUserRes is the supabase.auth.getUser result;
insertOk tells whether the user_profiles insert succeeds; orgRes maps
an organization id to the organizations select result for that id
(none when that select errors or finds nothing). -/
structure LoadEnv where
  profileRes : Option UserProfile
  getUserRes : Option User
  insertOk : Bool
  orgRes : String → Option Organization

/-- The user_profiles row constructed by the auto-provision branch of
loadProfileData: id is the userId argument, organization_id comes from
metadata, display_name is metadata display_name or else the local part
of the email, role is metadata invited_role defaulting to user. -/
def provisionRow (userId : String) (orgId : String) (u : User) : UserProfile :=
  { id := userId
    organization_id := orgId
    email := u.email
    display_name := u.user_metadata.display_name <|> u.email.map localPart
    role := u.user_metadata.invited_role.getD "user" }

/-- One completed run of loadProfileData from the latest AuthContext
revision, given the outcomes of its external calls. Returns the updated
AuthState together with the list of user_profiles insert attempts the
run performed. All state updates in the source are prev merges. -/
def loadProfileData (env : LoadEnv) (userId : String) (s : AuthState) :
    AuthState × List UserProfile :=
  match env.profileRes with
  | some p =>
    ({ s with profile := some p
              organization := env.orgRes p.organization_id
              needsPasswordSetup := false }, [])
  | none =>
    match env.getUserRes with
    | none => (s, [])
    | some u =>
      if u.user_metadata.invited_by.isSome then
        ({ s with needsPasswordSetup := true }, [])
      else
        match u.user_metadata.organization_id with
        | none => (s, [])
        | some orgId =>
          let row := provisionRow userId orgId u
          if env.insertOk then
            ({ s with profile := some row
                      organization := env.orgRes row.organization_id
                      needsPasswordSetup := false }, [row])
          else
            (s, [row])

/-- Sample invited user: metadata carries invited_by but the user also
has organization_id, as produced by the invite endpoint. -/
def invitedUser : User :=
  { id := "ub"
    email := some "b@x.com"
    user_metadata :=
      { organization_id := some "org1", display_name := none,
        invited_by := some "ua", invited_role := none } }

/-- Sample organization member user: organization metadata but no
invited_by marker. -/
def memberUser : User :=
  { id := "uc"
    email := some "c@x.com"
    user_metadata :=
      { organization_id := some "org1", display_name := none,
        invited_by := none, invited_role := none } }

/-- Sample admin user whose profile row exists in the database. -/
def adminUser : User :=
  { id := "ua"
    email := some "admin@x.com"
    user_metadata :=
      { organization_id := some "org1", display_name := some "Admin",
        invited_by := none, invited_role := none } }

/-- Profile row of the sample admin user. -/
def adminProfileRow : UserProfile :=
  { id := "ua", organization_id := "org1", email := some "admin@x.com",
    display_name := some "Admin", role := "admin" }

/-- Sample organization row. -/
def orgOne : Organization :=
  { id := "org1", name := "Org One" }

/-- Claim C2: for a user id whose profile query returns no row (or
errors, both modelled by profileRes = none) and whose re-fetched user
metadata contains invited_by, a completed Profile Loader run sets
needsPasswordSetup to true, leaves profile null, and performs no
profile insert. -/
theorem loadProfileData_invited_sets_needsPasswordSetup
    (env : LoadEnv) (uid : String) (s : AuthState) (u : User)
    (hp : env.profileRes = none) (hu : env.getUserRes = some u)
    (hinv : u.user_metadata.invited_by.isSome = true)
    (hprof : s.profile = none) :
    (loadProfileData env uid s).1.needsPasswordSetup = true ∧
    (loadProfileData env uid s).1.profile = none ∧
    (loadProfileData env uid s).2 = [] := by
  simp [loadProfileData, hp, hu, hinv, hprof]

/-- Witness for C2: the theorem applied to a concrete invited user with
an empty database response. -/
theorem loadProfileData_invited_sets_needsPasswordSetup_witness :
    (loadProfileData
      { profileRes := none, getUserRes := some invitedUser,
        insertOk := true, orgRes := fun _ => none }
      "ub" initialAuthState).1.needsPasswordSetup = true ∧
    (loadProfileData
      { profileRes := none, getUserRes := some invitedUser,
        insertOk := true, orgRes := fun _ => none }
      "ub" initialAuthState).1.profile = none ∧
    (loadProfileData
      { profileRes := none, getUserRes := some invitedUser,
        insertOk := true, orgRes := fun _ => none }
      "ub" initialAuthState).2 = [] :=
  loadProfileData_invited_sets_needsPasswordSetup _ "ub" initialAuthState
    invitedUser rfl rfl rfl rfl

/-- Claim C3: for a user id with no profile row, no invited_by in
metadata, and organization_id present in metadata, the Profile Loader
attempts exactly one profile insert with id equal to the user id, that
organization_id, the email of the user, display_name from metadata or
else the local part of the email, and role from invited_role metadata
defaulting to user; on successful insert it sets profile to the new
row, stores the fetched organization, and sets needsPasswordSetup to
false; on insert failure it leaves the whole AuthState unchanged. -/
theorem loadProfileData_auto_provision
    (env : LoadEnv) (uid : String) (s : AuthState) (u : User) (orgId : String)
    (hp : env.profileRes = none) (hu : env.getUserRes = some u)
    (hninv : u.user_metadata.invited_by = none)
    (horg : u.user_metadata.organization_id = some orgId) :
    (loadProfileData env uid s).2 = [provisionRow uid orgId u] ∧
    (provisionRow uid orgId u).id = uid ∧
    (provisionRow uid orgId u).organization_id = orgId ∧
    (provisionRow uid orgId u).email = u.email ∧
    (provisionRow uid orgId u).display_name
      = (u.user_metadata.display_name <|> u.email.map localPart) ∧
    (provisionRow uid orgId u).role = u.user_metadata.invited_role.getD "user" ∧
    (env.insertOk = true →
      (loadProfileData env uid s).1 =
        { s with profile := some (provisionRow uid orgId u)
                 organization := env.orgRes orgId
                 needsPasswordSetup := false }) ∧
    (env.insertOk = false → (loadProfileData env uid s).1 = s) := by
  refine ⟨?_, rfl, rfl, rfl, rfl, rfl, ?_, ?_⟩
  · cases h : env.insertOk <;> simp [loadProfileData, hp, hu, hninv, horg, h]
  · intro h; simp [loadProfileData, hp, hu, hninv, horg, h, provisionRow]
  · intro h; simp [loadProfileData, hp, hu, hninv, horg, h]

/-- Witness for C3: the theorem applied to the concrete member user
with a successful insert. -/
theorem loadProfileData_auto_provision_witness :
    (loadProfileData
      { profileRes := none, getUserRes := some memberUser,
        insertOk := true, orgRes := fun _ => some orgOne }
      "uc" initialAuthState).2 = [provisionRow "uc" "org1" memberUser] ∧
    (provisionRow "uc" "org1" memberUser).id = "uc" ∧
    (provisionRow "uc" "org1" memberUser).organization_id = "org1" ∧
    (provisionRow "uc" "org1" memberUser).email = memberUser.email ∧
    (provisionRow "uc" "org1" memberUser).display_name
      = (memberUser.user_metadata.display_name <|> memberUser.email.map localPart) ∧
    (provisionRow "uc" "org1" memberUser).role
      = memberUser.user_metadata.invited_role.getD "user" ∧
    (({ profileRes := none, getUserRes := some memberUser,
        insertOk := true, orgRes := fun _ => some orgOne } : LoadEnv).insertOk = true →
      (loadProfileData
        { profileRes := none, getUserRes := some memberUser,
          insertOk := true, orgRes := fun _ => some orgOne }
        "uc" initialAuthState).1 =
        { initialAuthState with
            profile := some (provisionRow "uc" "org1" memberUser)
            organization := some orgOne
            needsPasswordSetup := false }) ∧
    (({ profileRes := none, getUserRes := some memberUser,
        insertOk := true, orgRes := fun _ => some orgOne } : LoadEnv).insertOk = false →
      (loadProfileData
        { profileRes := none, getUserRes := some memberUser,
          insertOk := true, orgRes := fun _ => some orgOne }
        "uc" initialAuthState).1 = initialAuthState) :=
  loadProfileData_auto_provision _ "uc" initialAuthState memberUser "org1"
    rfl rfl rfl rfl

/-- Claim C4: when the profile query returns a row, the completed run
sets profile to that row and needsPasswordSetup to false, stores the
result of the organizations query keyed by the organization_id of the
profile (none on lookup failure, which is non-fatal: profile is still
set), and when that lookup succeeds the ids agree, assuming the
database honours the equality filter of the select (hwf). -/
theorem loadProfileData_profile_found
    (env : LoadEnv) (uid : String) (s : AuthState) (p : UserProfile)
    (hp : env.profileRes = some p)
    (hwf : ∀ oid o, env.orgRes oid = some o → o.id = oid) :
    (loadProfileData env uid s).1.profile = some p ∧
    (loadProfileData env uid s).1.needsPasswordSetup = false ∧
    (loadProfileData env uid s).1.organization = env.orgRes p.organization_id ∧
    (env.orgRes p.organization_id = none →
      (loadProfileData env uid s).1.organization = none) ∧
    (∀ o, (loadProfileData env uid s).1.organization = some o →
      p.organization_id = o.id) ∧
    (loadProfileData env uid s).2 = [] := by
  refine ⟨by simp [loadProfileData, hp], by simp [loadProfileData, hp],
    by simp [loadProfileData, hp], by intro h; simp [loadProfileData, hp, h],
    ?_, by simp [loadProfileData, hp]⟩
  intro o ho
  simp only [loadProfileData, hp] at ho
  exact (hwf _ _ ho).symm

/-- Witness for C4: the theorem applied to the concrete admin profile
row with an organizations table holding exactly orgOne. -/
theorem loadProfileData_profile_found_witness :
    (loadProfileData
      { profileRes := some adminProfileRow, getUserRes := some adminUser,
        insertOk := true,
        orgRes := fun oid => if oid = "org1" then some orgOne else none }
      "ua" initialAuthState).1.profile = some adminProfileRow ∧
    (loadProfileData
      { profileRes := some adminProfileRow, getUserRes := some adminUser,
        insertOk := true,
        orgRes := fun oid => if oid = "org1" then some orgOne else none }
      "ua" initialAuthState).1.needsPasswordSetup = false ∧
    (loadProfileData
      { profileRes := some adminProfileRow, getUserRes := some adminUser,
        insertOk := true,
        orgRes := fun oid => if oid = "org1" then some orgOne else none }
      "ua" initialAuthState).1.organization =
      (if adminProfileRow.organization_id = "org1" then some orgOne else none) ∧
    ((if adminProfileRow.organization_id = "org1" then some orgOne else none)
        = (none : Option Organization) →
      (loadProfileData
        { profileRes := some adminProfileRow, getUserRes := some adminUser,
          insertOk := true,
          orgRes := fun oid => if oid = "org1" then some orgOne else none }
        "ua" initialAuthState).1.organization = none) ∧
    (∀ o, (loadProfileData
        { profileRes := some adminProfileRow, getUserRes := some adminUser,
          insertOk := true,
          orgRes := fun oid => if oid = "org1" then some orgOne else none }
        "ua" initialAuthState).1.organization = some o →
      adminProfileRow.organization_id = o.id) ∧
    (loadProfileData
      { profileRes := some adminProfileRow, getUserRes := some adminUser,
        insertOk := true,
        orgRes := fun oid => if oid = "org1" then some orgOne else none }
      "ua" initialAuthState).2 = [] :=
  loadProfileData_profile_found _ "ua" initialAuthState adminProfileRow rfl
    (by intro oid o ho
        by_cases h : oid = "org1"
        · simp [h] at ho; simp [← ho, orgOne, h]
        · simp [h] at ho)

/-- Auth change events the onAuthStateChange handler branches on. -/
inductive AuthEvent
  | signedIn
  | tokenRefreshed
  | signedOut
deriving Repr, DecidableEq

/-- The synchronous setState performed by the SIGNED_IN and
TOKEN_REFRESHED branch of the onAuthStateChange handler: a prev merge
that updates session, user and initialized only, leaving profile,
organization and needsPasswordSetup untouched. -/
def signInSyncUpdate (sess : Session) (s : AuthState) : AuthState :=
  { s with session := some sess, user := some sess.user, initialized := true }

/-- The ordered list of states a SIGNED_IN or TOKEN_REFRESHED event
carrying a session exposes to consumers: first the synchronous session
and user update, then, strictly later, the state produced by the
asynchronous loadProfileData run the handler starts. -/
def signInTrace (env : LoadEnv) (sess : Session) (s : AuthState) :
    List AuthState :=
  [signInSyncUpdate sess s,
   (loadProfileData env sess.user.id (signInSyncUpdate sess s)).1]

/-- The replacement state set by the SIGNED_OUT branch (and by the
no-session path of initialize). The source object literal omits
needsPasswordSetup, so after the replacement React holds undefined in
that field, which every consumer reads as false. -/
def signedOutState : AuthState :=
  { session := none, user := none, profile := none, organization := none,
    initialized := true, needsPasswordSetup := false }

/-- One completed delivery of an auth event to the onAuthStateChange
handler of the latest revision, including the loadProfileData run the
sign-in branch starts. A SIGNED_IN or TOKEN_REFRESHED event without a
session user leaves the state unchanged. -/
def handleAuthEvent (e : AuthEvent) (sess : Option Session) (env : LoadEnv)
    (s : AuthState) : AuthState :=
  match e with
  | .signedIn | .tokenRefreshed =>
    match sess with
    | some ss => (signInTrace env ss s).getLastD s
    | none => s
  | .signedOut => signedOutState

/-- Result of the supabase.auth.getSession call inside initialize:
either the call returns (a returned error object is only logged, so
only the session matters) or it throws and the catch block runs. -/
inductive InitResult
  | ret (sess : Option Session)
  | thrown
deriving Repr

/-- One complete run of the initialize function from the mount effect
of the latest revision, including the background loadProfileData it
starts when a session user is present. The with-session and no-session
setState literals omit needsPasswordSetup, read back as false. -/
def initializeRun (r : InitResult) (env : LoadEnv) (s : AuthState) : AuthState :=
  match r with
  | .thrown => { s with initialized := true }
  | .ret none => signedOutState
  | .ret (some sess) =>
    (loadProfileData env sess.user.id
      { session := some sess, user := some sess.user, profile := none,
        organization := none, initialized := true,
        needsPasswordSetup := false }).1

/-- One call of refreshProfile: runs loadProfileData on the current
user when one is set, otherwise does nothing. -/
def refreshProfile (env : LoadEnv) (s : AuthState) : AuthState :=
  match s.user with
  | some u => (loadProfileData env u.id s).1
  | none => s

/-- Outcomes of the external calls one run of completePasswordSetup
performs: getUserRes is the getUser result (none covers both an error
and a missing user), updateErr the error message of the updateUser
call when it fails, insertErr the error message of the user_profiles
insert when it fails, and loadEnv the outcomes for the follow-up
loadProfileData run on full success. -/
structure SetupEnv where
  getUserRes : Option User
  updateErr : Option String
  insertErr : Option String
  loadEnv : LoadEnv

/-- The user_profiles row constructed by completePasswordSetup:
display_name is the argument, or metadata display_name, or else the
local part of the email; role is invited_role defaulting to user. -/
def setupRow (u : User) (orgId : String) (displayName : Option String) :
    UserProfile :=
  { id := u.id
    organization_id := orgId
    email := u.email
    display_name := displayName <|> u.user_metadata.display_name
      <|> u.email.map localPart
    role := u.user_metadata.invited_role.getD "user" }

/-- Result of one completePasswordSetup run: the AuthState afterwards,
the error returned to the caller (none on success), and the list of
user_profiles insert attempts performed (the setup insert itself plus
any insert attempted by the follow-up loadProfileData run). -/
structure SetupResult where
  state : AuthState
  error : Option String
  inserts : List UserProfile
deriving Repr

/-- One completed run of completePasswordSetup from the latest
revision. The steps run in order: getUser, updateUser (password and
display name), read organization_id from metadata, insert the profile
row, and only on full success clear needsPasswordSetup and re-run
loadProfileData. Every failure returns at once without a setState. -/
def completePasswordSetup (env : SetupEnv) (_password : String)
    (displayName : Option String) (s : AuthState) : SetupResult :=
  match env.getUserRes with
  | none => { state := s, error := some "Not authenticated", inserts := [] }
  | some u =>
    match env.updateErr with
    | some m => { state := s, error := some m, inserts := [] }
    | none =>
      match u.user_metadata.organization_id with
      | none => { state := s, error := some "No organization found", inserts := [] }
      | some orgId =>
        let row := setupRow u orgId displayName
        match env.insertErr with
        | some m => { state := s, error := some m, inserts := [row] }
        | none =>
          let afterClear := { s with needsPasswordSetup := false }
          let res := loadProfileData env.loadEnv u.id afterClear
          { state := res.1, error := none, inserts := row :: res.2 }

/-- One operation of the auth state machine: a bootstrap run, a
delivered auth event, a manual refresh, or a password-setup run, each
packaged with the outcomes of the external calls it performs. -/
inductive Op
  | boot (r : InitResult) (env : LoadEnv)
  | event (e : AuthEvent) (sess : Option Session) (env : LoadEnv)
  | refresh (env : LoadEnv)
  | setup (env : SetupEnv) (password : String) (displayName : Option String)

/-- Effect of one completed operation on the AuthState. -/
def step (s : AuthState) (op : Op) : AuthState :=
  match op with
  | .boot r env => initializeRun r env s
  | .event e sess env => handleAuthEvent e sess env s
  | .refresh env => refreshProfile env s
  | .setup env pw dn => (completePasswordSetup env pw dn s).state

/-- State reached by a sequence of completed operations from the
initial AuthProvider state. -/
def runOps (ops : List Op) : AuthState :=
  ops.foldl step initialAuthState

/-- Loader environment of the admin user against a consistent
database: the profile row exists and the organization resolves. -/
def adminLoadEnv : LoadEnv :=
  { profileRes := some adminProfileRow, getUserRes := some adminUser,
    insertOk := true,
    orgRes := fun oid => if oid = "org1" then some orgOne else none }

/-- Sign-in of the admin user, whose profile row exists, against a
consistent database. -/
def signInAdminOp : Op :=
  .event .signedIn (some { user := adminUser }) adminLoadEnv

/-- Loader environment of a freshly invited user against a consistent
database: no profile row yet, metadata carries invited_by. -/
def invitedLoadEnv : LoadEnv :=
  { profileRes := none, getUserRes := some invitedUser,
    insertOk := true, orgRes := fun _ => none }

/-- Sign-in of the invited user, who has no profile row yet. -/
def signInInvitedOp : Op :=
  .event .signedIn (some { user := invitedUser }) invitedLoadEnv

/-- Counterexample to claim C1 as stated: after the admin signs in
(profile row loaded) and then the invited user signs in on the same
client (consistent database responses throughout), the reachable state
has needsPasswordSetup true together with the stale non-null profile
of the admin, because neither the sign-in branch nor the invited
branch of the Profile Loader clears the profile field. -/
theorem needsPasswordSetup_with_nonnull_profile_reachable :
    (runOps [signInAdminOp, signInInvitedOp]).needsPasswordSetup = true ∧
    (runOps [signInAdminOp, signInInvitedOp]).profile = some adminProfileRow ∧
    (runOps [signInAdminOp, signInInvitedOp]).user = some invitedUser :=
  ⟨rfl, rfl, rfl⟩

/-- Claim C1 as amended: needsPasswordSetup becomes true only through
the invited branch of the Profile Loader — the profile query returned
no row (or errored) and the re-fetched user metadata contains
invited_by — and that branch performs no insert and leaves the profile
field unchanged rather than clearing it, so the flag can coexist with
a stale non-null profile loaded by an earlier run. -/
theorem loadProfileData_needsPasswordSetup_only_invited_branch
    (env : LoadEnv) (uid : String) (s : AuthState)
    (h : s.needsPasswordSetup = false) :
    ((loadProfileData env uid s).1.needsPasswordSetup = true ↔
      env.profileRes = none ∧
        ∃ u, env.getUserRes = some u ∧ u.user_metadata.invited_by.isSome = true) ∧
    ((loadProfileData env uid s).1.needsPasswordSetup = true →
      (loadProfileData env uid s).1.profile = s.profile ∧
      (loadProfileData env uid s).2 = []) := by
  cases hp : env.profileRes with
  | some p => simp [loadProfileData, hp]
  | none =>
    cases hg : env.getUserRes with
    | none => simp [loadProfileData, hp, hg, h]
    | some u =>
      by_cases hi : u.user_metadata.invited_by.isSome
      · simp [loadProfileData, hp, hg, hi]
      · cases horg : u.user_metadata.organization_id with
        | none => simp [loadProfileData, hp, hg, hi, horg, h]
        | some oid =>
          cases hio : env.insertOk <;>
            simp [loadProfileData, hp, hg, hi, horg, hio, h]

/-- Witness for the amended C1: the characterization applied to the
concrete invited-user environment and the initial state. -/
theorem loadProfileData_needsPasswordSetup_only_invited_branch_witness :
    ((loadProfileData invitedLoadEnv "ub" initialAuthState).1.needsPasswordSetup = true ↔
      invitedLoadEnv.profileRes = none ∧
        ∃ u, invitedLoadEnv.getUserRes = some u ∧
          u.user_metadata.invited_by.isSome = true) ∧
    ((loadProfileData invitedLoadEnv "ub" initialAuthState).1.needsPasswordSetup = true →
      (loadProfileData invitedLoadEnv "ub" initialAuthState).1.profile
        = initialAuthState.profile ∧
      (loadProfileData invitedLoadEnv "ub" initialAuthState).2 = []) :=
  loadProfileData_needsPasswordSetup_only_invited_branch
    invitedLoadEnv "ub" initialAuthState rfl

/-- Claim C6: a SIGNED_IN or TOKEN_REFRESHED event carrying a session
with a user first applies the synchronous session, user and
initialized update — which does not touch profile — and the state
produced by the loadProfileData run it starts lands strictly later in
the exposed trace; when the previous profile was null the transient
state with a non-null user and a null profile is therefore observable
between the two updates. -/
theorem signIn_sync_update_precedes_loader
    (env : LoadEnv) (sess : Session) (s : AuthState) :
    signInTrace env sess s =
      [signInSyncUpdate sess s,
       (loadProfileData env sess.user.id (signInSyncUpdate sess s)).1] ∧
    (signInSyncUpdate sess s).session = some sess ∧
    (signInSyncUpdate sess s).user = some sess.user ∧
    (signInSyncUpdate sess s).initialized = true ∧
    (signInSyncUpdate sess s).profile = s.profile ∧
    handleAuthEvent .signedIn (some sess) env s
      = (loadProfileData env sess.user.id (signInSyncUpdate sess s)).1 ∧
    handleAuthEvent .tokenRefreshed (some sess) env s
      = (loadProfileData env sess.user.id (signInSyncUpdate sess s)).1 ∧
    (s.profile = none →
      (signInSyncUpdate sess s).user.isSome = true ∧
      (signInSyncUpdate sess s).profile = none) := by
  refine ⟨rfl, rfl, rfl, rfl, rfl, rfl, rfl, ?_⟩
  intro h
  exact ⟨rfl, by simp [signInSyncUpdate, h]⟩

/-- Witness for C6: the transient authenticated state with pending
profile, observed for the concrete admin sign-in from the initial
state. -/
theorem signIn_sync_update_precedes_loader_witness :
    (signInSyncUpdate { user := adminUser } initialAuthState).user.isSome = true ∧
    (signInSyncUpdate { user := adminUser } initialAuthState).profile = none :=
  (signIn_sync_update_precedes_loader adminLoadEnv { user := adminUser }
    initialAuthState).2.2.2.2.2.2.2 rfl

/-- The isAdmin flag exposed through the context value: the optional
chain on profile role compared with the admin literal. -/
def isAdmin (s : AuthState) : Bool :=
  match s.profile with
  | some p => p.role == "admin"
  | none => false

/-- Claim C9: isAdmin is true exactly when a profile is present with
role admin, hence false whenever profile is null — in particular in
the transient post-sign-in state, even when the loader is about to
deliver an admin profile, so admin-gated navigation sees a non-admin
until the Profile Loader completes. -/
theorem isAdmin_iff_profile_role_admin (s : AuthState) :
    (isAdmin s = true ↔ ∃ p, s.profile = some p ∧ p.role = "admin") ∧
    (s.profile = none → isAdmin s = false) ∧
    (∀ (sess : Session) (s0 : AuthState), s0.profile = none →
      isAdmin (signInSyncUpdate sess s0) = false) ∧
    (∀ (env : LoadEnv) (sess : Session) (s0 : AuthState) (p : UserProfile),
      s0.profile = none → env.profileRes = some p → p.role = "admin" →
      isAdmin (signInSyncUpdate sess s0) = false ∧
      isAdmin ((loadProfileData env sess.user.id (signInSyncUpdate sess s0)).1)
        = true) := by
  refine ⟨?_, ?_, ?_, ?_⟩
  · cases hp : s.profile with
    | some p => simp [isAdmin, hp]
    | none => simp [isAdmin, hp]
  · intro h; simp [isAdmin, h]
  · intro sess s0 h; simp [isAdmin, signInSyncUpdate, h]
  · intro env sess s0 p h hp hrole
    constructor
    · simp [isAdmin, signInSyncUpdate, h]
    · simp [isAdmin, loadProfileData, hp, hrole]

/-- Witness for C9: the admin sign-in from the initial state is seen
as non-admin in the transient state and as admin once the loader run
has landed. -/
theorem isAdmin_iff_profile_role_admin_witness :
    isAdmin (signInSyncUpdate { user := adminUser } initialAuthState) = false ∧
    isAdmin ((loadProfileData adminLoadEnv
      (Session.user { user := adminUser }).id
      (signInSyncUpdate { user := adminUser } initialAuthState)).1) = true :=
  (isAdmin_iff_profile_role_admin initialAuthState).2.2.2 adminLoadEnv
    { user := adminUser } initialAuthState adminProfileRow rfl rfl rfl

/-- Claim C8: completePasswordSetup evaluates its steps in order and
returns the first failure without altering the AuthState — Not
authenticated without a user, the provider message verbatim on update
failure, No organization found without organization metadata, the
provider message verbatim on insert failure — and only on full
success returns no error, clears needsPasswordSetup and re-runs the
Profile Loader; after an insert failure a subsequent Profile Loader
run finding no profile row for the still-invited user reports
needsPasswordSetup true again. -/
theorem completePasswordSetup_first_failure
    (env : SetupEnv) (pw : String) (dn : Option String) (s : AuthState) :
    (env.getUserRes = none →
      completePasswordSetup env pw dn s
        = { state := s, error := some "Not authenticated", inserts := [] }) ∧
    (∀ u m, env.getUserRes = some u → env.updateErr = some m →
      completePasswordSetup env pw dn s
        = { state := s, error := some m, inserts := [] }) ∧
    (∀ u, env.getUserRes = some u → env.updateErr = none →
      u.user_metadata.organization_id = none →
      completePasswordSetup env pw dn s
        = { state := s, error := some "No organization found", inserts := [] }) ∧
    (∀ u oid m, env.getUserRes = some u → env.updateErr = none →
      u.user_metadata.organization_id = some oid → env.insertErr = some m →
      (completePasswordSetup env pw dn s).state = s ∧
      (completePasswordSetup env pw dn s).error = some m) ∧
    (∀ u oid, env.getUserRes = some u → env.updateErr = none →
      u.user_metadata.organization_id = some oid → env.insertErr = none →
      (completePasswordSetup env pw dn s).error = none ∧
      (completePasswordSetup env pw dn s).state
        = (loadProfileData env.loadEnv u.id
            { s with needsPasswordSetup := false }).1) ∧
    (∀ u oid m, env.getUserRes = some u → env.updateErr = none →
      u.user_metadata.organization_id = some oid → env.insertErr = some m →
      ∀ (env2 : LoadEnv) (uid : String) (u2 : User),
        env2.profileRes = none → env2.getUserRes = some u2 →
        u2.user_metadata.invited_by.isSome = true →
        (loadProfileData env2 uid
          (completePasswordSetup env pw dn s).state).1.needsPasswordSetup
          = true) := by
  refine ⟨?_, ?_, ?_, ?_, ?_, ?_⟩
  · intro h; simp [completePasswordSetup, h]
  · intro u m hu hm; simp [completePasswordSetup, hu, hm]
  · intro u hu hm horg; simp [completePasswordSetup, hu, hm, horg]
  · intro u oid m hu hm horg hins
    simp [completePasswordSetup, hu, hm, horg, hins]
  · intro u oid hu hm horg hins
    simp [completePasswordSetup, hu, hm, horg, hins]
  · intro u oid m hu hm horg hins env2 uid u2 h2p h2u h2i
    simp [loadProfileData, h2p, h2u, h2i]

/-- Environment of a password-setup run whose profile insert fails
after the password update succeeded. -/
def failedInsertSetupEnv : SetupEnv :=
  { getUserRes := some invitedUser, updateErr := none,
    insertErr := some "duplicate key value", loadEnv := invitedLoadEnv }

/-- Witness for C8: with a failing insert the run returns the provider
message verbatim and leaves the state unchanged, and the next Profile
Loader run for the still-invited user reports needsPasswordSetup. -/
theorem completePasswordSetup_first_failure_witness :
    ((completePasswordSetup failedInsertSetupEnv "pw" none initialAuthState).state
        = initialAuthState ∧
     (completePasswordSetup failedInsertSetupEnv "pw" none initialAuthState).error
        = some "duplicate key value") ∧
    (loadProfileData invitedLoadEnv "ub"
      (completePasswordSetup failedInsertSetupEnv "pw" none
        initialAuthState).state).1.needsPasswordSetup = true :=
  ⟨(completePasswordSetup_first_failure failedInsertSetupEnv "pw" none
      initialAuthState).2.2.2.1 invitedUser "org1" "duplicate key value"
      rfl rfl rfl rfl,
   (completePasswordSetup_first_failure failedInsertSetupEnv "pw" none
      initialAuthState).2.2.2.2.2 invitedUser "org1" "duplicate key value"
      rfl rfl rfl rfl invitedLoadEnv "ub" invitedUser rfl rfl rfl⟩

/-- The emails field of the invite request body: absent (or another
falsy value), present but not an array, or an array of strings. -/
inductive EmailsField
  | missing
  | notArray
  | arr (emails : List String)
deriving Repr, DecidableEq

/-- An incoming HTTP request to api/invite as the handler reads it:
the method string, the optional Authorization header, and the emails
field of the body. -/
structure InviteRequest where
  method : String
  authorization : Option String
  emails : EmailsField

/-- Row returned by the admin check select (role and organization_id
columns of user_profiles for the caller id). -/
structure AdminCheckRow where
  role : String
  organization_id : String
deriving Repr, DecidableEq

/-- Outcomes of the external calls the invite handler performs:
tokenUser resolves a bearer token to a user (none when getUser errors
or returns no user), profileRow is the admin check select result for
the caller, and inviteErr gives the per-address error of the
administrative invite call (none on success). -/
structure InviteEnv where
  tokenUser : String → Option User
  profileRow : Option AdminCheckRow
  inviteErr : String → Option String

/-- One administrative invite-by-email call as issued by the handler,
with the metadata attached to it. -/
structure InviteCall where
  email : String
  organization_id : String
  invited_by : String
  invited_role : String
deriving Repr, DecidableEq

/-- Response of the invite handler: the HTTP status and the list of
administrative invite calls performed. Response bodies beyond the
status are not modelled. -/
structure InviteResult where
  status : Nat
  calls : List InviteCall
deriving Repr, DecidableEq

/-- The invite calls issued by the send loop: each address is trimmed
and lowercased; an empty or at-sign-free address produces an error
entry and no call; every call carries the organization of the caller
profile, the caller id as invited_by, and invited_role user. -/
def sendInvites (_env : InviteEnv) (row : AdminCheckRow) (caller : User)
    (emails : List String) : List InviteCall :=
  emails.filterMap (fun email =>
    let t := jsToLower (jsTrim email)
    if t.data.isEmpty || !t.data.contains (Char.ofNat 64) then none
    else some { email := t, organization_id := row.organization_id,
                invited_by := caller.id, invited_role := "user" })

/-- The guard chain of the invite handler, evaluated in source order:
200 for an OPTIONS preflight, 405 for any other non-POST method, 401
for a missing or non-Bearer Authorization header and for a token that
does not resolve to a user, 403 when the caller profile is absent or
its role is not admin, 400 for a missing, non-array or empty emails
field and for more than ten addresses. An early status is returned as
the error of the Except; on success the validated caller profile row,
caller and address list pass through. -/
def inviteGate (env : InviteEnv) (req : InviteRequest) :
    Except Nat (AdminCheckRow × User × List String) :=
  if req.method = "OPTIONS" then .error 200
  else if req.method ≠ "POST" then .error 405
  else
    match req.authorization with
    | none => .error 401
    | some hdr =>
      if !strStartsWith hdr "Bearer " then .error 401
      else
        match env.tokenUser (hdr.drop 7) with
        | none => .error 401
        | some caller =>
          match env.profileRow with
          | none => .error 403
          | some row =>
            if row.role ≠ "admin" then .error 403
            else
              match req.emails with
              | .missing => .error 400
              | .notArray => .error 400
              | .arr es =>
                if es.length = 0 then .error 400
                else if es.length > 10 then .error 400
                else .ok (row, caller, es)

/-- The invite handler: an early status from the guard chain is
answered with no invite call performed; a request passing every guard
is answered 200 after the send loop runs. -/
def inviteHandler (env : InviteEnv) (req : InviteRequest) : InviteResult :=
  match inviteGate env req with
  | .error st => { status := st, calls := [] }
  | .ok (row, caller, es) => { status := 200, calls := sendInvites env row caller es }

/-- Claim C7: the invite endpoint answers 200 to OPTIONS, 405 to other
non-POST methods, 401 to a missing or non-Bearer Authorization header
and to an unresolvable token, 403 to a caller without an admin
profile, 400 to a missing, non-array, empty or oversized emails list,
and in each of these cases performs no invite call. -/
theorem inviteHandler_guard_chain (env : InviteEnv) (req : InviteRequest) :
    (req.method = "OPTIONS" →
      inviteHandler env req = { status := 200, calls := [] }) ∧
    (req.method ≠ "OPTIONS" → req.method ≠ "POST" →
      inviteHandler env req = { status := 405, calls := [] }) ∧
    (req.method = "POST" → req.authorization = none →
      inviteHandler env req = { status := 401, calls := [] }) ∧
    (∀ hdr, req.method = "POST" → req.authorization = some hdr →
      strStartsWith hdr "Bearer " = false →
      inviteHandler env req = { status := 401, calls := [] }) ∧
    (∀ hdr, req.method = "POST" → req.authorization = some hdr →
      strStartsWith hdr "Bearer " = true → env.tokenUser (hdr.drop 7) = none →
      inviteHandler env req = { status := 401, calls := [] }) ∧
    (∀ hdr caller, req.method = "POST" → req.authorization = some hdr →
      strStartsWith hdr "Bearer " = true →
      env.tokenUser (hdr.drop 7) = some caller → env.profileRow = none →
      inviteHandler env req = { status := 403, calls := [] }) ∧
    (∀ hdr caller row, req.method = "POST" → req.authorization = some hdr →
      strStartsWith hdr "Bearer " = true →
      env.tokenUser (hdr.drop 7) = some caller →
      env.profileRow = some row → row.role ≠ "admin" →
      inviteHandler env req = { status := 403, calls := [] }) ∧
    (∀ hdr caller row, req.method = "POST" → req.authorization = some hdr →
      strStartsWith hdr "Bearer " = true →
      env.tokenUser (hdr.drop 7) = some caller →
      env.profileRow = some row → row.role = "admin" →
      (req.emails = .missing ∨ req.emails = .notArray ∨ req.emails = .arr []) →
      inviteHandler env req = { status := 400, calls := [] }) ∧
    (∀ hdr caller row es, req.method = "POST" → req.authorization = some hdr →
      strStartsWith hdr "Bearer " = true →
      env.tokenUser (hdr.drop 7) = some caller →
      env.profileRow = some row → row.role = "admin" →
      req.emails = .arr es → es.length > 10 →
      inviteHandler env req = { status := 400, calls := [] }) := by
  refine ⟨?_, ?_, ?_, ?_, ?_, ?_, ?_, ?_, ?_⟩
  · intro h; simp [inviteHandler, inviteGate, h]
  · intro h1 h2; simp [inviteHandler, inviteGate, h1, h2]
  · intro h1 h2; simp [inviteHandler, inviteGate, h1, h2]
  · intro hdr h1 h2 h3; simp [inviteHandler, inviteGate, h1, h2, h3]
  · intro hdr h1 h2 h3 h4; simp [inviteHandler, inviteGate, h1, h2, h3, h4]
  · intro hdr caller h1 h2 h3 h4 h5
    simp [inviteHandler, inviteGate, h1, h2, h3, h4, h5]
  · intro hdr caller row h1 h2 h3 h4 h5 h6
    simp [inviteHandler, inviteGate, h1, h2, h3, h4, h5, h6]
  · intro hdr caller row h1 h2 h3 h4 h5 h6 h7
    rcases h7 with h7 | h7 | h7 <;>
      simp [inviteHandler, inviteGate, h1, h2, h3, h4, h5, h6, h7]
  · intro hdr caller row es h1 h2 h3 h4 h5 h6 h7 h8
    have hne : es.length ≠ 0 := by omega
    simp [inviteHandler, inviteGate, h1, h2, h3, h4, h5, h6, h7, h8, hne]

/-- Token environment of the invite endpoint in which the concrete
bearer token of the member user resolves, and the caller profile row
is a non-admin row. -/
def nonAdminInviteEnv : InviteEnv :=
  { tokenUser := fun t => if t = "tok-uc" then some memberUser else none
    profileRow := some { role := "user", organization_id := "org1" }
    inviteErr := fun _ => none }

/-- A POST invite request carrying the member bearer token and one
valid address. -/
def nonAdminInviteReq : InviteRequest :=
  { method := "POST", authorization := some "Bearer tok-uc",
    emails := .arr ["a@x.com"] }

/-- Witness for C7: the non-admin bearer request is answered 403 with
no invite call performed. -/
theorem inviteHandler_guard_chain_witness :
    inviteHandler nonAdminInviteEnv nonAdminInviteReq
      = { status := 403, calls := [] } :=
  (inviteHandler_guard_chain nonAdminInviteEnv nonAdminInviteReq).2.2.2.2.2.2.1
    "Bearer tok-uc" memberUser { role := "user", organization_id := "org1" }
    rfl rfl rfl rfl rfl (by decide)

/-- Claim C10: every administrative invite call the endpoint performs
carries invited_role user, whatever the request body or the caller
role; and a profile provisioned from metadata whose invited_role is
user — by the auto-provision branch of the Profile Loader or by the
password-setup insert — receives role user, as does one provisioned
with no invited_role metadata at all. -/
theorem invite_calls_invited_role_user (env : InviteEnv) (req : InviteRequest) :
    (∀ c, c ∈ (inviteHandler env req).calls → c.invited_role = "user") ∧
    (∀ (uid oid : String) (u : User),
      u.user_metadata.invited_role = some "user" ∨
        u.user_metadata.invited_role = none →
      (provisionRow uid oid u).role = "user") ∧
    (∀ (u : User) (oid : String) (dn : Option String),
      u.user_metadata.invited_role = some "user" ∨
        u.user_metadata.invited_role = none →
      (setupRow u oid dn).role = "user") := by
  refine ⟨?_, ?_, ?_⟩
  · intro c hc
    unfold inviteHandler at hc
    cases hg : inviteGate env req with
    | error st => simp [hg] at hc
    | ok ctx =>
      obtain ⟨row, caller, es⟩ := ctx
      simp only [hg] at hc
      simp only [sendInvites, List.mem_filterMap] at hc
      obtain ⟨e, _, he⟩ := hc
      split at he
      · exact Option.noConfusion he
      · cases Option.some.inj he
        rfl
  · rintro uid oid u (h | h) <;> simp [provisionRow, h]
  · rintro u oid dn (h | h) <;> simp [setupRow, h]

/-- Admin environment for the invite endpoint with a resolving token
and an admin caller profile row. -/
def adminInviteEnv : InviteEnv :=
  { tokenUser := fun t => if t = "tok-ua" then some adminUser else none
    profileRow := some { role := "admin", organization_id := "org1" }
    inviteErr := fun _ => none }

/-- A POST invite request from the admin with one valid and one
invalid address. -/
def adminInviteReq : InviteRequest :=
  { method := "POST", authorization := some "Bearer tok-ua",
    emails := .arr ["A@X.com ", "bad"] }

/-- Witness for C10: on the concrete admin request, the single call
performed carries invited_role user. -/
theorem invite_calls_invited_role_user_witness :
    ({ email := "a@x.com", organization_id := "org1", invited_by := "ua",
       invited_role := "user" } : InviteCall).invited_role = "user" ∧
    (provisionRow "ub" "org1" invitedUser).role = "user" :=
  ⟨(invite_calls_invited_role_user adminInviteEnv adminInviteReq).1
      { email := "a@x.com", organization_id := "org1", invited_by := "ua",
        invited_role := "user" } (by decide),
   (invite_calls_invited_role_user adminInviteEnv adminInviteReq).2.1
      "ub" "org1" invitedUser (Or.inr rfl)⟩

/-!
Startup model of the bootstrap revisions that carry the safety timer
(the AuthProvider revision appended to the auth layout file, timer at
8000 ms, and the revision in the unnamed part file, timer at 5000 ms).
Their AuthState has a loading flag and no needsPasswordSetup field. A
startup with no auth events is a sequence of events: the session fetch
completing (with a session, without one — a returned error object
yields a null session — or by throwing into the catch block), the
safety timer firing, and the background profile fetch landing. The
timer is cleared only at teardown, so by the timeout bound the timer
event has occurred in every execution still mounted. -/

/-- AuthState of the earlier bootstrap revisions. -/
structure BootState where
  session : Option Session
  user : Option User
  profile : Option UserProfile
  organization : Option Organization
  loading : Bool
  initialized : Bool
deriving Repr, DecidableEq

/-- Initial React state of the earlier revisions. -/
def bootInit : BootState :=
  { session := none, user := none, profile := none, organization := none,
    loading := true, initialized := false }

/-- Outcome of the getSession call of initializeAuth. -/
inductive FetchOutcome
  | gotSession (sess : Session)
  | noSession
  | thrown
deriving Repr, DecidableEq

/-- One event of a startup with no auth events: the session fetch
completing, the safety timer firing, or the background profile fetch
landing. -/
inductive StartEvent
  | fetchDone (r : FetchOutcome)
  | timerFire
  | profileLoaded (p : Option UserProfile) (o : Option Organization)
deriving Repr, DecidableEq

/-- Safety timer delay of the revision appended to the auth layout. -/
def safetyTimeoutMsLayout : Nat := 8000

/-- Safety timer delay of the revision in the unnamed part file. -/
def safetyTimeoutMsEarly : Nat := 5000

/-- State update performed by one startup event, per the earlier
revision appended to the auth layout: a session fetch with a user does
a prev merge setting session, user, loading and initialized; a fetch
without a session replaces the state with the cleared initialized one;
a throw reaches the catch block, which prev merges loading and
initialized; the safety timer prev merges loading and initialized
unconditionally; the background profile fetch prev merges profile and
organization only. -/
def startupStep (s : BootState) (e : StartEvent) : BootState :=
  match e with
  | .fetchDone (.gotSession sess) =>
    { s with session := some sess, user := some sess.user,
             loading := false, initialized := true }
  | .fetchDone .noSession =>
    { session := none, user := none, profile := none, organization := none,
      loading := false, initialized := true }
  | .fetchDone .thrown => { s with loading := false, initialized := true }
  | .timerFire => { s with loading := false, initialized := true }
  | .profileLoaded p o => { s with profile := p, organization := o }

/-- Final state of a startup after a sequence of events. -/
def startupRun (evs : List StartEvent) : BootState :=
  evs.foldl startupStep bootInit

/-- The full list of states a startup exposes, beginning at the given
state, one entry per event processed. -/
def startupTrace (s : BootState) : List StartEvent → List BootState
  | [] => [s]
  | e :: es => s :: startupTrace (startupStep s e) es

/-- Number of false-to-true transitions between consecutive entries of
a boolean trace. -/
def edgeCount : List Bool → Nat
  | a :: b :: rest => (if a = false ∧ b = true then 1 else 0) + edgeCount (b :: rest)
  | _ => 0

/-- Every startup event preserves initialized once it is true. -/
theorem startupStep_initialized_mono (s : BootState) (e : StartEvent)
    (h : s.initialized = true) : (startupStep s e).initialized = true := by
  cases e with
  | fetchDone r => cases r <;> simp [startupStep]
  | timerFire => simp [startupStep]
  | profileLoaded p o => simpa [startupStep] using h

/-- Once initialized is true it stays true for the rest of a startup. -/
theorem startupFold_initialized_mono (evs : List StartEvent) :
    ∀ s : BootState, s.initialized = true →
      (evs.foldl startupStep s).initialized = true := by
  induction evs with
  | nil => intro s h; simpa using h
  | cons e es ih =>
    intro s h
    exact ih (startupStep s e) (startupStep_initialized_mono s e h)

/-- The startup trace always starts at its starting state. -/
theorem startupTrace_cons (evs : List StartEvent) (s : BootState) :
    ∃ t, startupTrace s evs = s :: t := by
  cases evs <;> exact ⟨_, rfl⟩

/-- A startup beginning initialized shows no rising edge. -/
theorem edgeCount_startupTrace_zero (evs : List StartEvent) :
    ∀ s : BootState, s.initialized = true →
      edgeCount ((startupTrace s evs).map (fun st => st.initialized)) = 0 := by
  induction evs with
  | nil => intro s h; simp [startupTrace, edgeCount]
  | cons e es ih =>
    intro s h
    obtain ⟨t, ht⟩ := startupTrace_cons es (startupStep s e)
    have h2 : (startupStep s e).initialized = true :=
      startupStep_initialized_mono s e h
    have := ih (startupStep s e) h2
    simp only [startupTrace, ht, List.map_cons] at this ⊢
    simpa [edgeCount, h, h2] using this

/-- A startup beginning uninitialized whose events include the timer
firing shows exactly one rising edge. -/
theorem edgeCount_startupTrace_one (evs : List StartEvent) :
    ∀ s : BootState, s.initialized = false → StartEvent.timerFire ∈ evs →
      edgeCount ((startupTrace s evs).map (fun st => st.initialized)) = 1 := by
  induction evs with
  | nil => intro s _ hmem; cases hmem
  | cons e es ih =>
    intro s h hmem
    obtain ⟨t, ht⟩ := startupTrace_cons es (startupStep s e)
    by_cases h2 : (startupStep s e).initialized = true
    · have hz := edgeCount_startupTrace_zero es (startupStep s e) h2
      simp only [startupTrace, ht, List.map_cons] at hz ⊢
      simpa [edgeCount, h, h2] using hz
    · have h2f : (startupStep s e).initialized = false :=
        Bool.not_eq_true _ |>.mp h2
      have hnt : e ≠ StartEvent.timerFire := by
        intro he
        apply h2
        rw [he]
        simp [startupStep]
      have hmem2 : StartEvent.timerFire ∈ es := by
        rcases List.mem_cons.mp hmem with he | hes
        · exact absurd he.symm hnt
        · exact hes
      have := ih (startupStep s e) h2f hmem2
      simp only [startupTrace, ht, List.map_cons] at this ⊢
      simpa [edgeCount, h, h2f] using this

/-- A startup whose events include the timer firing ends initialized,
wherever it starts. -/
theorem startupFold_initialized_of_timer (evs : List StartEvent) :
    ∀ s : BootState, StartEvent.timerFire ∈ evs →
      (evs.foldl startupStep s).initialized = true := by
  induction evs with
  | nil => intro s h; cases h
  | cons e es ih =>
    intro s hmem
    by_cases h2 : (startupStep s e).initialized = true
    · exact startupFold_initialized_mono es (startupStep s e) h2
    · have hnt : e ≠ StartEvent.timerFire := by
        intro he
        apply h2
        rw [he]
        simp [startupStep]
      have hmem2 : StartEvent.timerFire ∈ es := by
        rcases List.mem_cons.mp hmem with he | hes
        · exact absurd he.symm hnt
        · exact hes
      exact ih (startupStep s e) hmem2

/-- Claim C5: in a startup with no auth events, once the safety timer
has fired — which time guarantees within the timeout bound, the
observed delays being 5000 and 8000 ms — the final state is
initialized, the initialized flag shows exactly one false-to-true
transition along the whole trace, and a completing session fetch sets
initialized true whatever its outcome, a returned error (null session)
and a throw included. -/
theorem startup_initialized_within_timeout
    (evs : List StartEvent) (hmem : StartEvent.timerFire ∈ evs) :
    (startupRun evs).initialized = true ∧
    edgeCount ((startupTrace bootInit evs).map (fun st => st.initialized)) = 1 ∧
    (∀ (s : BootState) (r : FetchOutcome),
      (startupStep s (.fetchDone r)).initialized = true) ∧
    (∀ s : BootState, (startupStep s .timerFire).initialized = true) ∧
    safetyTimeoutMsEarly = 5000 ∧ safetyTimeoutMsLayout = 8000 := by
  refine ⟨?_, ?_, ?_, ?_, rfl, rfl⟩
  · exact startupFold_initialized_of_timer evs bootInit hmem
  · exact edgeCount_startupTrace_one evs bootInit rfl hmem
  · intro s r; cases r <;> simp [startupStep]
  · intro s; simp [startupStep]

/-- Witness for C5: a concrete startup in which the fetch hangs past
the timer, which then completes the startup on its own. -/
theorem startup_initialized_within_timeout_witness :
    (startupRun [StartEvent.timerFire]).initialized = true ∧
    edgeCount ((startupTrace bootInit [StartEvent.timerFire]).map
      (fun st => st.initialized)) = 1 ∧
    (∀ (s : BootState) (r : FetchOutcome),
      (startupStep s (.fetchDone r)).initialized = true) ∧
    (∀ s : BootState, (startupStep s .timerFire).initialized = true) ∧
    safetyTimeoutMsEarly = 5000 ∧ safetyTimeoutMsLayout = 8000 :=
  startup_initialized_within_timeout [StartEvent.timerFire] (by decide)

end Outstocked
